import Mathlib

/-!
# Verification of the detecttor cache-refresh subsystem

Shallow embedding of `src/index.ts` (the persistence-interface revision):
the `IpListPersistence` interface, its `FileSystemPersistence` and
`InMemoryPersistence` implementations, the fetcher `getIpListOnline`, the
coordinator `getIpList` with its module-level memo (`cachedIpList`,
`cacheTimestamp`, `CACHE_TTL = 60000`), and the boolean wrappers `isIpTor`
and `amIUsingTor`.

Modelling conventions:
- JavaScript `Set<string>` becomes `Finset String` (membership and equality
  are all the code observes; insertion order is never observable through the
  claims).
- JavaScript strings are `String`; the JS primitives `split`, `trim`,
  `join` and `parseInt(_, 10)` are modelled character-exactly on `String.data`
  (`Char.isWhitespace` covers the ASCII whitespace that the relay-list data
  can contain).
- A `throw` is an `Except.error`; a `try/catch` is a `match` on the fallible
  sub-computation.  Functions whose every error path is caught are total.
- The single network fetch of one call is an explicit `FetchOutcome`
  parameter: `success body` is an HTTP 200 with the given text, `failure`
  covers timeout, transport error and non-success status (all of which the
  code turns into a thrown error before any parsing or persistence write).
- `Date.now()` is an explicit `now : Int` parameter, one instant per call.
- A persistence implementation is a `StoreModel σ`: four operations over an
  explicit backing state `σ`, each returning `Except String _` so that the
  interface can express both raising and non-raising implementations.
-/

deriving instance DecidableEq for Except

namespace Detecttor

/-! ## JavaScript string primitives -/

/-- JS `s.split(c)` on the character level: single-character separator,
`"".split(c) = [""]`, separators at the ends produce empty fragments. -/
def splitOnChar (c : Char) : List Char → List (List Char)
  | [] => [[]]
  | x :: xs =>
    if x = c then [] :: splitOnChar c xs
    else
      match splitOnChar c xs with
      | [] => [[x]]
      | y :: ys => (x :: y) :: ys

/-- JS `array.join(c)` for a one-character separator. -/
def joinChar (c : Char) : List (List Char) → List Char
  | [] => []
  | [x] => x
  | x :: y :: ys => x ++ c :: joinChar c (y :: ys)

/-- JS `s.trim()`: drop leading and trailing whitespace. -/
def trimChar (l : List Char) : List Char :=
  ((l.dropWhile Char.isWhitespace).reverse.dropWhile Char.isWhitespace).reverse

/-- JS `s.split(c)` packaged on `String`. -/
def jsSplit (c : Char) (s : String) : List String :=
  (splitOnChar c s.data).map String.mk

/-- JS `s.trim()` packaged on `String`. -/
def jsTrim (s : String) : String := String.mk (trimChar s.data)

/-- Numeric value of a (non-empty) digit string. -/
def digitsToNat (l : List Char) : Nat :=
  l.foldl (fun a c => 10 * a + (c.toNat - 48)) 0

/-- JS `parseInt(s, 10)`: skip leading whitespace, optional sign, then the
longest decimal-digit prefix; `none` models `NaN` (no digits found).
Trailing non-digit characters are ignored, which is the source of the
lenient validation behaviour. -/
def jsParseInt (s : String) : Option Int :=
  match s.data.dropWhile Char.isWhitespace with
  | '+' :: rest =>
    let d := rest.takeWhile Char.isDigit
    if d.isEmpty then none else some (digitsToNat d)
  | '-' :: rest =>
    let d := rest.takeWhile Char.isDigit
    if d.isEmpty then none else some (-(digitsToNat d : Int))
  | l =>
    let d := l.takeWhile Char.isDigit
    if d.isEmpty then none else some (digitsToNat d)

/-! ## The fetcher's per-line validation (`getIpListOnline`, inner loop) -/

/-- One segment check of the code: `parseInt(parts[i], 10)` must not be `NaN`
and must lie in `[0, 255]`. -/
def validSeg (s : String) : Bool :=
  match jsParseInt s with
  | none => false
  | some n => decide (0 ≤ n) && decide (n ≤ 255)

/-- One line check of the code: `ip.split(".")` has exactly four parts and
every part passes `validSeg`. -/
def validLine (ip : String) : Bool :=
  let parts := jsSplit '.' ip
  parts.length == 4 && parts.all validSeg

/-- The set built by the fetcher's parsing loop from a response body:
split on newlines, trim, drop blank lines, keep the lines passing
`validLine`. -/
def validateBody (data : String) : Finset String :=
  (((jsSplit '\n' data).map jsTrim).filter
    (fun ip => ip != "" && validLine ip)).toFinset

/-- Spec-side definition, for comparison only (refutation of C4).  The
IPv4 dotted-quad grammar as the spec words it: a segment is a non-empty
all-digit string whose value is at most 255. -/
def isOctet (s : String) : Bool :=
  !s.data.isEmpty && s.data.all Char.isDigit && decide (digitsToNat s.data ≤ 255)

/-- Spec-side definition, for comparison only (refutation of C4): exactly
four dot-separated segments, each an integer in `[0, 255]`. -/
def matchesIpv4Grammar (s : String) : Bool :=
  (jsSplit '.' s).length == 4 && (jsSplit '.' s).all isOctet

/-! ## The persistence interface (`IpListPersistence`) -/

/-- The `IpListPersistence` interface over an explicit backing state `σ`.
Reads return a value, writes return the updated state; every operation may
raise (`Except.error`), matching the TypeScript interface whose
implementations may throw. -/
structure StoreModel (σ : Type) where
  getIpList : σ → Except String (Finset String)
  saveIpList : Finset String → σ → Except String σ
  getTimestamp : σ → Except String Int
  saveTimestamp : Int → σ → Except String σ

/-- Backing state of `InMemoryPersistence`: the stored set and timestamp. -/
abbrev InMemoryState := Finset String × Int

/-- `InMemoryPersistence`: reads return (copies of) the stored fields,
writes replace them; nothing ever throws. -/
def InMemoryPersistence : StoreModel InMemoryState :=
  { getIpList := fun s => .ok s.1
    saveIpList := fun l s => .ok (l, s.2)
    getTimestamp := fun s => .ok s.2
    saveTimestamp := fun t s => .ok (s.1, t) }

/-- Backing state of `FileSystemPersistence`: the two files.  `none` models
a missing or unreadable file.  The timestamp file always holds the decimal
text of one integer (the only writer is `saveTimestamp`, which writes
`timestamp.toString()`), so it is carried as that integer. -/
structure FsState where
  ipFile : Option (List Char)
  tsFile : Option Int
deriving DecidableEq

/-- `FileSystemPersistence.saveIpList` file content:
`Array.from(ipList).join("\n")`.  JS enumerates the set in insertion order;
the `Finset` model carries no insertion order, so the lines are emitted in a
canonical order — no claim observes the line order, only the parsed set. -/
def serializeIpList (l : Finset String) : List Char :=
  joinChar '\n' ((l.sort (· ≤ ·)).map String.data)

/-- `FileSystemPersistence.getIpList` parsing: split the file on newlines,
trim each line, drop blank lines, collect into a set. -/
def parseIpFile (content : List Char) : Finset String :=
  (((splitOnChar '\n' content).map (fun l => String.mk (trimChar l))).filter
    (fun ip => ip != "")).toFinset

/-- `FileSystemPersistence` on a run whose file I/O succeeds: reads degrade
to empty/zero when the file is absent (the catch branches), writes replace
the file contents. -/
def FileSystemPersistence : StoreModel FsState :=
  { getIpList := fun s => .ok (match s.ipFile with
      | none => ∅
      | some content => parseIpFile content)
    saveIpList := fun l s => .ok { s with ipFile := some (serializeIpList l) }
    getTimestamp := fun s => .ok (match s.tsFile with
      | none => 0
      | some t => t)
    saveTimestamp := fun t s => .ok { s with tsFile := some t } }

/-- A file-backed store on a run where the set write succeeds but the
timestamp write hits an I/O error, which `FileSystemPersistence.saveTimestamp`
rethrows.  Used to exhibit a partial record update. -/
def FlakyTimestampStore : StoreModel InMemoryState :=
  { getIpList := fun s => .ok s.1
    saveIpList := fun l s => .ok (l, s.2)
    getTimestamp := fun s => .ok s.2
    saveTimestamp := fun _ _ => .error "EIO" }

/-! ## The fetcher (`getIpListOnline`) -/

/-- Outcome of the single HTTP fetch of one `getIpListOnline` call. -/
inductive FetchOutcome
  | success (body : String)
  | failure
deriving DecidableEq

/-- `getIpListOnline(persistence)`: on fetch failure (timeout, transport
error, non-OK status) or an empty validated set, the thrown error reaches the
outer catch, which returns an empty set — with the store untouched.  On
success it writes the validated set, then the timestamp, to the store and
returns the set; a throwing write is also caught by the outer catch (after
the first write has already taken effect). -/
def getIpListOnline {σ : Type} (M : StoreModel σ) (fetch : FetchOutcome)
    (now : Int) (s : σ) : Finset String × σ :=
  match fetch with
  | .failure => (∅, s)
  | .success body =>
    let ipSet := validateBody body
    if ipSet = ∅ then (∅, s)
    else
      match M.saveIpList ipSet s with
      | .error _ => (∅, s)
      | .ok s1 =>
        match M.saveTimestamp now s1 with
        | .error _ => (∅, s1)
        | .ok s2 => (ipSet, s2)

/-! ## The coordinator (`getIpList`) -/

/-- The module-level memo: `cachedIpList` and `cacheTimestamp`. -/
structure CacheState where
  cachedIpList : Option (Finset String)
  cacheTimestamp : Int
deriving DecidableEq

/-- The dynamically typed `update` parameter (`boolean | string`, and the
claims also consider a number being passed). -/
inductive UpdateParam
  | bool (b : Bool)
  | str (s : String)
  | num (n : Int)
deriving DecidableEq

/-- Everything one `getIpList` call produces: its return value, the new memo
state, the new store state, and whether it invoked the fetcher, read the
store's address set, or read the store's timestamp. -/
structure RunResult (σ : Type) where
  result : Finset String
  cache : CacheState
  store : σ
  fetcherInvoked : Bool
  readStoreSet : Bool
  readStoreTimestamp : Bool
deriving DecidableEq

/-- The `shouldUpdate` computation at the top of `getIpList`: `"auto"` reads
the store timestamp (outside the function's try block, so an error
propagates) and compares against 24 hours; `true` forces; anything else
leaves `shouldUpdate` false.  Also reports whether the timestamp was read. -/
def computeShouldUpdate {σ : Type} (M : StoreModel σ) (u : UpdateParam)
    (now : Int) (s : σ) : Except String (Bool × Bool) :=
  match u with
  | .str v =>
    if v = "auto" then
      match M.getTimestamp s with
      | .error e => .error e
      | .ok ts => .ok (decide (now - ts > 86400000), true)
    else .ok (false, false)
  | .bool b => .ok (b, false)
  | .num _ => .ok (false, false)

/-- The body of `getIpList`'s try block: read the stored set (a throw here
is caught, returning an empty set with the memo untouched); if it is empty
or `shouldUpdate` holds, call `getIpListOnline`; memoize and return. -/
def getIpListMain {σ : Type} (M : StoreModel σ) (shouldUpdate : Bool)
    (cache : CacheState) (fetch : FetchOutcome) (now : Int) (s : σ)
    (readTs : Bool) : RunResult σ :=
  match M.getIpList s with
  | .error _ => ⟨∅, cache, s, false, true, readTs⟩
  | .ok ipList0 =>
    if ipList0 = ∅ || shouldUpdate then
      let r := getIpListOnline M fetch now s
      ⟨r.1, ⟨some r.1, now⟩, r.2, true, true, readTs⟩
    else
      ⟨ipList0, ⟨some ipList0, now⟩, s, false, true, readTs⟩

/-- `getIpList(params)`: compute `shouldUpdate` (this is the only
uncaught-failure point, via the `"auto"` timestamp read), serve the memo when
it is populated, not force-refreshed and younger than `CACHE_TTL = 60000` ms,
and otherwise run the main body. -/
def getIpList {σ : Type} (M : StoreModel σ) (u : UpdateParam)
    (cache : CacheState) (fetch : FetchOutcome) (now : Int) (s : σ) :
    Except String (RunResult σ) :=
  match computeShouldUpdate M u now s with
  | .error e => .error e
  | .ok (shouldUpdate, readTs) =>
    match cache.cachedIpList with
    | some c =>
      if (!shouldUpdate && decide (now - cache.cacheTimestamp < 60000)) = true then
        .ok ⟨c, cache, s, false, false, readTs⟩
      else .ok (getIpListMain M shouldUpdate cache fetch now s readTs)
    | none => .ok (getIpListMain M shouldUpdate cache fetch now s readTs)

/-! ## The boolean wrappers -/

/-- `getIpAddress()`: its catch-all converts every failure to `"unknown"`;
the network answer of one call is the explicit `resp` parameter. -/
def getIpAddress (resp : Option String) : String :=
  match resp with
  | some ip => ip
  | none => "unknown"

/-- `isIpTor(ip, persistence)`: membership test against
`getIpList({ persistence })`, whose `update` defaults to `"auto"`. -/
def isIpTor {σ : Type} (M : StoreModel σ) (ip : String) (cache : CacheState)
    (fetch : FetchOutcome) (now : Int) (s : σ) :
    Except String (Bool × CacheState × σ) :=
  match getIpList M (.str "auto") cache fetch now s with
  | .error e => .error e
  | .ok r => .ok (decide (ip ∈ r.result), r.cache, r.store)

/-- `amIUsingTor(persistence)`: discover the own address, then `isIpTor`. -/
def amIUsingTor {σ : Type} (M : StoreModel σ) (resp : Option String)
    (cache : CacheState) (fetch : FetchOutcome) (now : Int) (s : σ) :
    Except String (Bool × CacheState × σ) :=
  isIpTor M (getIpAddress resp) cache fetch now s

/-! ## Helper lemmas: split / join on characters -/

theorem splitOnChar_of_not_mem {c : Char} {l : List Char} (h : c ∉ l) :
    splitOnChar c l = [l] := by
  induction l with
  | nil => rfl
  | cons x xs ih =>
    have hx : ¬ x = c := fun e => h (e ▸ List.mem_cons_self x xs)
    have hxs : c ∉ xs := fun hc => h (List.mem_cons_of_mem _ hc)
    simp [splitOnChar, hx, ih hxs]

theorem splitOnChar_append_cons (c : Char) {x : List Char} (hx : c ∉ x)
    (rest : List Char) :
    splitOnChar c (x ++ c :: rest) = x :: splitOnChar c rest := by
  induction x with
  | nil => simp [splitOnChar]
  | cons a as ih =>
    have ha : ¬ a = c := fun e => hx (e ▸ List.mem_cons_self a as)
    have has : c ∉ as := fun hc => hx (List.mem_cons_of_mem _ hc)
    simp [splitOnChar, ha, ih has]

theorem splitOnChar_joinChar (c : Char) (L : List (List Char)) (hne : L ≠ [])
    (hfree : ∀ l ∈ L, c ∉ l) : splitOnChar c (joinChar c L) = L := by
  induction L with
  | nil => exact absurd rfl hne
  | cons x xs ih =>
    cases xs with
    | nil => simpa [joinChar] using splitOnChar_of_not_mem (hfree x (by simp))
    | cons y ys =>
      have h1 : c ∉ x := hfree x (by simp)
      rw [joinChar, splitOnChar_append_cons c h1,
        ih (by simp) (fun l hl => hfree l (List.mem_cons_of_mem _ hl))]

/-- Serializing a set of non-empty, newline-free, trim-invariant addresses to
the file format and parsing it back recovers the set. -/
theorem parseIpFile_serialize (S : Finset String)
    (h : ∀ m ∈ S, m ≠ "" ∧ '\n' ∉ m.data ∧ trimChar m.data = m.data) :
    parseIpFile (serializeIpList S) = S := by
  rcases eq_or_ne S ∅ with hS | hS
  · subst hS
    have hser : serializeIpList ∅ = [] := by
      unfold serializeIpList
      rw [Finset.sort_empty]
      rfl
    rw [hser]
    decide
  · have hsne : S.sort (· ≤ ·) ≠ [] := by
      obtain ⟨a, ha⟩ := Finset.nonempty_iff_ne_empty.2 hS
      intro hnil
      have hmem : a ∈ S.sort (· ≤ ·) := (Finset.mem_sort _).2 ha
      rw [hnil] at hmem
      exact absurd hmem (List.not_mem_nil a)
    have hL : (S.sort (· ≤ ·)).map String.data ≠ [] := by
      simpa using hsne
    have hfree : ∀ l ∈ (S.sort (· ≤ ·)).map String.data, '\n' ∉ l := by
      intro l hl
      obtain ⟨m, hm, rfl⟩ := List.mem_map.1 hl
      exact (h m ((Finset.mem_sort _).1 hm)).2.1
    unfold parseIpFile serializeIpList
    rw [splitOnChar_joinChar _ _ hL hfree, List.map_map]
    have hmap : (S.sort (· ≤ ·)).map ((fun l => String.mk (trimChar l)) ∘ String.data)
        = S.sort (· ≤ ·) := by
      have hcongr : ∀ m ∈ S.sort (· ≤ ·),
          ((fun l => String.mk (trimChar l)) ∘ String.data) m = id m := by
        intro m hm
        have ht := (h m ((Finset.mem_sort _).1 hm)).2.2
        simp [Function.comp, ht]
      simpa using List.map_congr_left hcongr
    rw [hmap]
    have hfilter : (S.sort (· ≤ ·)).filter (fun ip => ip != "") = S.sort (· ≤ ·) := by
      apply List.filter_eq_self.mpr
      intro a ha
      have hne := (h a ((Finset.mem_sort _).1 ha)).1
      simpa using hne
    rw [hfilter]
    exact Finset.sort_toFinset _ _

/-! ## Helper lemmas: evaluating the coordinator -/

theorem computeShouldUpdate_auto {σ : Type} (M : StoreModel σ) (now : Int) (s : σ)
    (ts : Int) (h : M.getTimestamp s = .ok ts) :
    computeShouldUpdate M (.str "auto") now s
      = .ok (decide (now - ts > 86400000), true) := by
  simp [computeShouldUpdate, h]

theorem computeShouldUpdate_str_other {σ : Type} (M : StoreModel σ) (v : String)
    (hv : v ≠ "auto") (now : Int) (s : σ) :
    computeShouldUpdate M (.str v) now s = .ok (false, false) := by
  simp [computeShouldUpdate, hv]

theorem getIpList_no_cache {σ : Type} (M : StoreModel σ) (u : UpdateParam) (ct : Int)
    (fetch : FetchOutcome) (now : Int) (s : σ) (su rt : Bool)
    (hsu : computeShouldUpdate M u now s = .ok (su, rt)) :
    getIpList M u ⟨none, ct⟩ fetch now s
      = .ok (getIpListMain M su ⟨none, ct⟩ fetch now s rt) := by
  unfold getIpList
  rw [hsu]

theorem getIpList_cache_hit {σ : Type} (M : StoreModel σ) (u : UpdateParam)
    (S : Finset String) (ct : Int) (fetch : FetchOutcome) (now : Int) (s : σ) (rt : Bool)
    (hsu : computeShouldUpdate M u now s = .ok (false, rt))
    (hlt : now - ct < 60000) :
    getIpList M u ⟨some S, ct⟩ fetch now s = .ok ⟨S, ⟨some S, ct⟩, s, false, false, rt⟩ := by
  unfold getIpList
  rw [hsu]
  simp [hlt]

theorem getIpList_cache_bypass {σ : Type} (M : StoreModel σ) (u : UpdateParam)
    (S : Finset String) (ct : Int) (fetch : FetchOutcome) (now : Int) (s : σ) (rt : Bool)
    (hsu : computeShouldUpdate M u now s = .ok (true, rt)) :
    getIpList M u ⟨some S, ct⟩ fetch now s
      = .ok (getIpListMain M true ⟨some S, ct⟩ fetch now s rt) := by
  unfold getIpList
  rw [hsu]
  simp

theorem getIpList_some_cache {σ : Type} (M : StoreModel σ) (u : UpdateParam)
    (S : Finset String) (ct : Int) (fetch : FetchOutcome) (now : Int) (s : σ) (su rt : Bool)
    (hsu : computeShouldUpdate M u now s = .ok (su, rt)) :
    getIpList M u ⟨some S, ct⟩ fetch now s
      = if (!su && decide (now - ct < 60000)) = true
          then .ok ⟨S, ⟨some S, ct⟩, s, false, false, rt⟩
          else .ok (getIpListMain M su ⟨some S, ct⟩ fetch now s rt) := by
  unfold getIpList
  rw [hsu]

theorem getIpListMain_read {σ : Type} (M : StoreModel σ) (su : Bool) (cache : CacheState)
    (fetch : FetchOutcome) (now : Int) (s : σ) (rt : Bool) (S : Finset String)
    (hread : M.getIpList s = .ok S) :
    getIpListMain M su cache fetch now s rt =
      if S = ∅ || su then
        ⟨(getIpListOnline M fetch now s).1, ⟨some (getIpListOnline M fetch now s).1, now⟩,
          (getIpListOnline M fetch now s).2, true, true, rt⟩
      else ⟨S, ⟨some S, now⟩, s, false, true, rt⟩ := by
  unfold getIpListMain
  rw [hread]

theorem getIpListMain_frame {σ : Type} (M : StoreModel σ) (su : Bool) (cache : CacheState)
    (fetch : FetchOutcome) (now : Int) (s : σ) (rt : Bool) :
    ((getIpListMain M su cache fetch now s rt).fetcherInvoked = false
      ∧ (getIpListMain M su cache fetch now s rt).store = s)
    ∨ ((getIpListMain M su cache fetch now s rt).fetcherInvoked = true
      ∧ (getIpListMain M su cache fetch now s rt).store
          = (getIpListOnline M fetch now s).2) := by
  unfold getIpListMain
  split
  · exact Or.inl ⟨rfl, rfl⟩
  · split
    · exact Or.inr ⟨rfl, rfl⟩
    · exact Or.inl ⟨rfl, rfl⟩

theorem getIpList_ok_frame {σ : Type} {M : StoreModel σ} {u : UpdateParam}
    {cache : CacheState} {fetch : FetchOutcome} {now : Int} {s : σ} {r : RunResult σ}
    (h : getIpList M u cache fetch now s = .ok r) :
    (r.fetcherInvoked = false ∧ r.store = s)
    ∨ (r.fetcherInvoked = true ∧ r.store = (getIpListOnline M fetch now s).2) := by
  unfold getIpList at h
  split at h
  · exact Except.noConfusion h
  · split at h
    · split at h
      · cases h
        exact Or.inl ⟨rfl, rfl⟩
      · cases h
        exact getIpListMain_frame M _ _ fetch now s _
    · cases h
      exact getIpListMain_frame M _ _ fetch now s _

theorem getIpList_isOk {σ : Type} (M : StoreModel σ) (u : UpdateParam)
    (cache : CacheState) (fetch : FetchOutcome) (now : Int) (s : σ)
    (hts : ∀ st : σ, ∃ v, M.getTimestamp st = .ok v) :
    ∃ r, getIpList M u cache fetch now s = .ok r := by
  obtain ⟨su, rt, hsu⟩ : ∃ su rt, computeShouldUpdate M u now s = .ok (su, rt) := by
    cases u with
    | str v =>
      by_cases hv : v = "auto"
      · subst hv
        obtain ⟨t, ht⟩ := hts s
        exact ⟨_, _, computeShouldUpdate_auto M now s t ht⟩
      · exact ⟨false, false, computeShouldUpdate_str_other M v hv now s⟩
    | bool b => exact ⟨b, false, rfl⟩
    | num n => exact ⟨false, false, rfl⟩
  obtain ⟨cc, ct⟩ := cache
  cases cc with
  | none => exact ⟨_, getIpList_no_cache M u ct fetch now s su rt hsu⟩
  | some c =>
    rw [getIpList_some_cache M u c ct fetch now s su rt hsu]
    by_cases hcond : (!su && decide (now - ct < 60000)) = true
    · rw [if_pos hcond]
      exact ⟨_, rfl⟩
    · rw [if_neg hcond]
      exact ⟨_, rfl⟩

theorem isIpTor_eval {σ : Type} (M : StoreModel σ) (ip : String) (cache : CacheState)
    (fetch : FetchOutcome) (now : Int) (s : σ) (r : RunResult σ)
    (hr : getIpList M (.str "auto") cache fetch now s = .ok r) :
    isIpTor M ip cache fetch now s = .ok (decide (ip ∈ r.result), r.cache, r.store) := by
  unfold isIpTor
  rw [hr]

theorem getIpListOnline_inMemory_success (body : String) (now : Int) (mem : InMemoryState)
    (hne : validateBody body ≠ ∅) :
    getIpListOnline InMemoryPersistence (.success body) now mem
      = (validateBody body, (validateBody body, now)) := by
  simp [getIpListOnline, InMemoryPersistence, hne]

/-! ## Claim C1 -/

/-- Claim C1 counterexample.  The claim says that on an empty store,
`getIpList` with `update=false` returns the empty set and never invokes the
fetcher.  In the code, an empty stored set triggers `getIpListOnline`
regardless of `update`: here the call with `update=false` on the empty
in-memory store invokes the fetcher (`fetcherInvoked = true`) and returns the
fetched set, not the empty set. -/
theorem C1_counterexample :
    getIpList InMemoryPersistence (.bool false) ⟨none, 5⟩ (.success "1.2.3.4") 1000 (∅, 0)
      = .ok ⟨{"1.2.3.4"}, ⟨some {"1.2.3.4"}, 1000⟩, (({"1.2.3.4"} : Finset String), 1000),
          true, true, false⟩ := by
  decide

/-- Claim C1 amended: with an empty stored address set, `update=false` and no
live memo, `getIpList` does attempt a refresh — it invokes the fetcher and
returns whatever `getIpListOnline` produces (the validated set on success,
the empty set on failure). -/
theorem C1_amended {σ : Type} (M : StoreModel σ) (fetch : FetchOutcome) (now ct : Int)
    (s : σ) (hread : M.getIpList s = .ok ∅) :
    getIpList M (.bool false) ⟨none, ct⟩ fetch now s
      = .ok ⟨(getIpListOnline M fetch now s).1,
          ⟨some (getIpListOnline M fetch now s).1, now⟩,
          (getIpListOnline M fetch now s).2, true, true, false⟩ := by
  rw [getIpList_no_cache M (.bool false) ct fetch now s false false rfl,
    getIpListMain_read M false ⟨none, ct⟩ fetch now s false ∅ hread,
    if_pos (by simp)]

/-- Witness for C1 amended at a concrete input. -/
theorem C1_amended_witness :
    getIpList InMemoryPersistence (.bool false) ⟨none, 7⟩ .failure 2000 (∅, 0)
      = .ok ⟨(getIpListOnline InMemoryPersistence .failure 2000 (∅, 0)).1,
          ⟨some (getIpListOnline InMemoryPersistence .failure 2000 (∅, 0)).1, 2000⟩,
          (getIpListOnline InMemoryPersistence .failure 2000 (∅, 0)).2, true, true, false⟩ :=
  C1_amended InMemoryPersistence .failure 2000 7 (∅, 0) rfl

/-! ## Claim C2 -/

/-- Claim C2 counterexample.  The claim says that when the fetch fails during
`update=true` on a store holding a non-empty set, the call returns exactly
the stored set.  In the code, the failed `getIpListOnline` returns the empty
set and `getIpList` returns (and memoizes) that empty set: here the store
holds `{"3.3.3.3"}`, the store is indeed left untouched, but the call
returns `∅ ≠ {"3.3.3.3"}`. -/
theorem C2_counterexample :
    getIpList InMemoryPersistence (.bool true) ⟨none, 0⟩ .failure 90000000 ({"3.3.3.3"}, 0)
      = .ok ⟨∅, ⟨some ∅, 90000000⟩, (({"3.3.3.3"} : Finset String), 0), true, true, false⟩
    ∧ (∅ : Finset String) ≠ {"3.3.3.3"} := by
  exact ⟨by decide, by decide⟩

/-- Claim C2 amended: on `update=true` with a failing fetch, the store is
left untouched, but the call returns the empty set (which it also memoizes),
not the set the store holds. -/
theorem C2_amended {σ : Type} (M : StoreModel σ) (S : Finset String) (s : σ) (now ct : Int)
    (hread : M.getIpList s = .ok S) :
    getIpList M (.bool true) ⟨none, ct⟩ .failure now s
      = .ok ⟨∅, ⟨some ∅, now⟩, s, true, true, false⟩
    ∧ ∀ S2 : Finset String, getIpList M (.bool true) ⟨some S2, ct⟩ .failure now s
      = .ok ⟨∅, ⟨some ∅, now⟩, s, true, true, false⟩ := by
  constructor
  · rw [getIpList_no_cache M (.bool true) ct .failure now s true false rfl,
      getIpListMain_read M true ⟨none, ct⟩ .failure now s false S hread,
      if_pos (by simp)]
    rfl
  · intro S2
    rw [getIpList_cache_bypass M (.bool true) S2 ct .failure now s false rfl,
      getIpListMain_read M true ⟨some S2, ct⟩ .failure now s false S hread,
      if_pos (by simp)]
    rfl

/-- Witness for C2 amended at a concrete input. -/
theorem C2_amended_witness :
    getIpList InMemoryPersistence (.bool true) ⟨none, 0⟩ .failure 5 ({"3.3.3.3"}, 0)
      = .ok ⟨∅, ⟨some ∅, 5⟩, (({"3.3.3.3"} : Finset String), 0), true, true, false⟩
    ∧ ∀ S2 : Finset String,
      getIpList InMemoryPersistence (.bool true) ⟨some S2, 0⟩ .failure 5 ({"3.3.3.3"}, 0)
        = .ok ⟨∅, ⟨some ∅, 5⟩, (({"3.3.3.3"} : Finset String), 0), true, true, false⟩ :=
  C2_amended InMemoryPersistence {"3.3.3.3"} ({"3.3.3.3"}, 0) 5 0 rfl

/-! ## Claim C3 -/

/-- Claim C3 counterexample.  The claim says the persistence record is never
partially updated.  In the code, `getIpListOnline` writes the set first and
the timestamp second; on a store whose timestamp write raises (as
`FileSystemPersistence.saveTimestamp` does on an I/O error), the set field is
overwritten while the timestamp field keeps its old value — a partial
update. -/
theorem C3_counterexample :
    getIpListOnline FlakyTimestampStore (.success "1.2.3.4") 777 ({"9.9.9.9"}, 5)
      = (∅, (({"1.2.3.4"} : Finset String), 5))
    ∧ ({"1.2.3.4"} : Finset String) ≠ {"9.9.9.9"} := by
  exact ⟨by decide, by decide⟩

/-- Claim C3 amended: a failed fetch (timeout, transport error, non-OK
status — all modelled by `FetchOutcome.failure` — or an empty validated set)
leaves the record untouched, and on a refresh whose two writes both succeed
the two fields are overwritten together; but if the set write succeeds and
the timestamp write fails, the record is partially updated (see the
counterexample). -/
theorem C3_failed_fetch_frame {σ : Type} (M : StoreModel σ) (now : Int) (s : σ)
    (body : String) (mem : InMemoryState) :
    getIpListOnline M .failure now s = (∅, s)
    ∧ (validateBody body = ∅ → getIpListOnline M (.success body) now s = (∅, s))
    ∧ (validateBody body ≠ ∅ →
      getIpListOnline InMemoryPersistence (.success body) now mem
        = (validateBody body, (validateBody body, now))) := by
  refine ⟨rfl, ?_, ?_⟩
  · intro he
    simp only [getIpListOnline]
    rw [if_pos he]
  · intro hne
    exact getIpListOnline_inMemory_success body now mem hne

/-- Witness for C3 amended at a concrete input. -/
theorem C3_failed_fetch_frame_witness :
    validateBody "1.2.3.4" ≠ ∅
    ∧ getIpListOnline InMemoryPersistence (.success "1.2.3.4") 9 ({"8.8.8.8"}, 2)
        = (validateBody "1.2.3.4", (validateBody "1.2.3.4", 9)) :=
  ⟨by decide,
    (C3_failed_fetch_frame InMemoryPersistence 9 ({"8.8.8.8"}, 2) "1.2.3.4"
      ({"8.8.8.8"}, 2)).2.2 (by decide)⟩

/-! ## Claim C4 -/

/-- Claim C4 counterexample.  The claim says every member of a successful
fetch matches the strict IPv4 dotted-quad grammar.  The code validates each
segment with JS `parseInt`, which ignores trailing non-digits: the line
`"1.2.3.4a"` passes the code's check (its fourth segment parses to `4`),
is returned by a successful fetch, yet does not match the grammar. -/
theorem C4_counterexample :
    (getIpListOnline InMemoryPersistence (.success "1.2.3.4a") 3 (∅, 0)).1 = {"1.2.3.4a"}
    ∧ matchesIpv4Grammar "1.2.3.4a" = false
    ∧ validLine "1.2.3.4a" = true := by
  exact ⟨by decide, by decide, by decide⟩

/-- Claim C4 amended: every member of the validated set has exactly four
dot-separated segments, each of which JS-`parseInt`-parses to an integer in
`[0, 255]` (leniently: leading whitespace, a sign, and trailing non-digit
characters are tolerated by `parseInt`); candidate lines failing this check
are discarded without failing the whole fetch, as the concrete mixed body
shows. -/
theorem C4_validated_members (body ip : String) (h : ip ∈ validateBody body) :
    ((jsSplit '.' ip).length = 4
      ∧ ∀ p ∈ jsSplit '.' ip, ∃ n : Int, jsParseInt p = some n ∧ 0 ≤ n ∧ n ≤ 255)
    ∧ validateBody "999.1.1.1\n1.2.3\n1.2.3.4" = {"1.2.3.4"} := by
  refine ⟨?_, by decide⟩
  have hv : validLine ip = true := by
    unfold validateBody at h
    rw [List.mem_toFinset, List.mem_filter] at h
    have hb := h.2
    rw [Bool.and_eq_true] at hb
    exact hb.2
  unfold validLine at hv
  rw [Bool.and_eq_true] at hv
  obtain ⟨hlen, hall⟩ := hv
  refine ⟨by simpa using hlen, ?_⟩
  intro p hp
  have hseg : validSeg p = true := by
    rw [List.all_eq_true] at hall
    exact hall p hp
  unfold validSeg at hseg
  cases hpi : jsParseInt p with
  | none =>
    rw [hpi] at hseg
    exact Bool.noConfusion hseg
  | some n =>
    rw [hpi] at hseg
    rw [Bool.and_eq_true, decide_eq_true_eq, decide_eq_true_eq] at hseg
    exact ⟨n, rfl, hseg.1, hseg.2⟩

/-- Witness for C4 amended at a concrete input. -/
theorem C4_validated_members_witness :
    "1.2.3.4" ∈ validateBody "1.2.3.4\nnot-an-ip"
    ∧ (((jsSplit '.' "1.2.3.4").length = 4
      ∧ ∀ p ∈ jsSplit '.' "1.2.3.4", ∃ n : Int, jsParseInt p = some n ∧ 0 ≤ n ∧ n ≤ 255)
      ∧ validateBody "999.1.1.1\n1.2.3\n1.2.3.4" = {"1.2.3.4"}) :=
  ⟨by decide, C4_validated_members "1.2.3.4\nnot-an-ip" "1.2.3.4" (by decide)⟩

/-! ## Claim C5 -/

/-- Claim C5: under `update="auto"` (with no live memo and a non-empty stored
set), a record whose timestamp is `now - 24h - 1ms` is treated as stale — the
fetcher is invoked — while a record whose timestamp is `now - 24h + 1ms` is
treated as fresh: the stored set is returned with no refresh
(`fetcherInvoked = false`). -/
theorem C5_staleness_boundary {σ : Type} (M : StoreModel σ) (now ct : Int) (s : σ)
    (S : Finset String) (fetch : FetchOutcome) (hS : S ≠ ∅)
    (hread : M.getIpList s = .ok S) :
    (M.getTimestamp s = .ok (now - 86400001) →
      ∃ r, getIpList M (.str "auto") ⟨none, ct⟩ fetch now s = .ok r
        ∧ r.fetcherInvoked = true)
    ∧ (M.getTimestamp s = .ok (now - 86399999) →
      getIpList M (.str "auto") ⟨none, ct⟩ fetch now s
        = .ok ⟨S, ⟨some S, now⟩, s, false, true, true⟩) := by
  constructor
  · intro ht
    have harith : now - (now - 86400001) > 86400000 := by omega
    have hsu : computeShouldUpdate M (.str "auto") now s = .ok (true, true) := by
      rw [computeShouldUpdate_auto M now s _ ht, decide_eq_true harith]
    rw [getIpList_no_cache M (.str "auto") ct fetch now s true true hsu,
      getIpListMain_read M true ⟨none, ct⟩ fetch now s true S hread,
      if_pos (by simp)]
    exact ⟨_, rfl, rfl⟩
  · intro ht
    have harith : ¬ now - (now - 86399999) > 86400000 := by omega
    have hsu : computeShouldUpdate M (.str "auto") now s = .ok (false, true) := by
      rw [computeShouldUpdate_auto M now s _ ht, decide_eq_false harith]
    rw [getIpList_no_cache M (.str "auto") ct fetch now s false true hsu,
      getIpListMain_read M false ⟨none, ct⟩ fetch now s true S hread,
      if_neg (by simp [hS])]

/-- Witness for C5 at a concrete input (the stale antecedent holds there:
the stored timestamp is exactly `now - 86400001`). -/
theorem C5_staleness_boundary_witness :
    (InMemoryPersistence.getTimestamp ({"1.2.3.4"}, 13599999)
        = .ok ((100000000 : Int) - 86400001) →
      ∃ r, getIpList InMemoryPersistence (.str "auto") ⟨none, 0⟩ .failure 100000000
          ({"1.2.3.4"}, 13599999) = .ok r ∧ r.fetcherInvoked = true)
    ∧ (InMemoryPersistence.getTimestamp ({"1.2.3.4"}, 13599999)
        = .ok ((100000000 : Int) - 86399999) →
      getIpList InMemoryPersistence (.str "auto") ⟨none, 0⟩ .failure 100000000
          ({"1.2.3.4"}, 13599999)
        = .ok ⟨{"1.2.3.4"}, ⟨some {"1.2.3.4"}, 100000000⟩, ({"1.2.3.4"}, 13599999),
            false, true, true⟩) :=
  C5_staleness_boundary InMemoryPersistence 100000000 0 ({"1.2.3.4"}, 13599999)
    {"1.2.3.4"} .failure (by decide) rfl

/-! ## Claim C6 -/

/-- Claim C6 counterexample.  The claim says `getIpListOnline` never writes
to the persistence store.  On a successful fetch it writes both the set and
the timestamp: the store state it returns differs from the one it was
given. -/
theorem C6_counterexample :
    (getIpListOnline InMemoryPersistence (.success "1.2.3.4") 42 (∅, 0)).2
      = (({"1.2.3.4"} : Finset String), 42)
    ∧ ((({"1.2.3.4"} : Finset String), (42 : Int)) : InMemoryState) ≠ (∅, 0) := by
  exact ⟨by decide, by decide⟩

/-- Claim C6 amended: the persistence responsibility is inverted relative to
the claim.  `getIpListOnline` itself persists the validated set and the
timestamp on success (concrete conjunct), while the coordinator `getIpList`
performs no store write of its own: when it does not invoke the fetcher the
store is unchanged, and when it does, the final store state is exactly the
one produced by the `getIpListOnline` call. -/
theorem C6_persistence_responsibility {σ : Type} (M : StoreModel σ) (u : UpdateParam)
    (cache : CacheState) (fetch : FetchOutcome) (now : Int) (s : σ) (r : RunResult σ)
    (h : getIpList M u cache fetch now s = .ok r) :
    (r.fetcherInvoked = false → r.store = s)
    ∧ (r.fetcherInvoked = true → r.store = (getIpListOnline M fetch now s).2)
    ∧ getIpListOnline InMemoryPersistence (.success "5.6.7.8") now (∅, 0)
        = ({"5.6.7.8"}, ({"5.6.7.8"}, now)) := by
  refine ⟨?_, ?_, ?_⟩
  · intro hf
    rcases getIpList_ok_frame h with ⟨_, hs⟩ | ⟨ht, _⟩
    · exact hs
    · rw [hf] at ht
      exact Bool.noConfusion ht
  · intro hf
    rcases getIpList_ok_frame h with ⟨ht, _⟩ | ⟨_, hs⟩
    · rw [hf] at ht
      exact Bool.noConfusion ht
    · exact hs
  · rw [getIpListOnline_inMemory_success "5.6.7.8" now (∅, 0) (by decide)]
    have hval : validateBody "5.6.7.8" = {"5.6.7.8"} := by decide
    rw [hval]

/-- Witness for C6 amended at a concrete input: the third conjunct of the
amended statement, obtained by applying the theorem to a concrete
successful run. -/
theorem C6_persistence_responsibility_witness :
    getIpListOnline InMemoryPersistence (.success "5.6.7.8") 77 (∅, 0)
      = ({"5.6.7.8"}, ({"5.6.7.8"}, 77)) :=
  (C6_persistence_responsibility InMemoryPersistence (.bool true) ⟨none, 0⟩
    (.success "5.6.7.8") 77 (∅, 0)
    ⟨{"5.6.7.8"}, ⟨some {"5.6.7.8"}, 77⟩, ({"5.6.7.8"}, 77), true, true, false⟩
    (by decide)).2.2

/-! ## Claim C7 -/

/-- Claim C7: for every store satisfying the store contract — reads never
raise (writes are unconstrained and may raise) — and every input, `isIpTor`
and `amIUsingTor` never raise: they always resolve to an `Except.ok` carrying
a boolean.  The timestamp-read part of the contract is load-bearing: that
read happens outside the coordinator's try block. -/
theorem C7_boolean_total {σ : Type} (M : StoreModel σ)
    (hts : ∀ st : σ, ∃ v, M.getTimestamp st = .ok v)
    (_hread : ∀ st : σ, ∃ v, M.getIpList st = .ok v)
    (ip : String) (resp : Option String) (cache : CacheState) (fetch : FetchOutcome)
    (now : Int) (s : σ) :
    (∃ b c s2, isIpTor M ip cache fetch now s = .ok (b, c, s2))
    ∧ (∃ b c s2, amIUsingTor M resp cache fetch now s = .ok (b, c, s2)) := by
  obtain ⟨r, hr⟩ := getIpList_isOk M (.str "auto") cache fetch now s hts
  constructor
  · exact ⟨_, _, _, isIpTor_eval M ip cache fetch now s r hr⟩
  · exact ⟨_, _, _, isIpTor_eval M (getIpAddress resp) cache fetch now s r hr⟩

/-- Witness for C7 at a concrete input (the in-memory store, whose reads
never raise). -/
theorem C7_boolean_total_witness :
    (∃ b c s2, isIpTor InMemoryPersistence "1.2.3.4" ⟨none, 0⟩ .failure 0 (∅, 0)
      = .ok (b, c, s2))
    ∧ (∃ b c s2, amIUsingTor InMemoryPersistence none ⟨none, 0⟩ .failure 0 (∅, 0)
      = .ok (b, c, s2)) :=
  C7_boolean_total InMemoryPersistence (fun st => ⟨st.2, rfl⟩) (fun st => ⟨st.1, rfl⟩)
    "1.2.3.4" none ⟨none, 0⟩ .failure 0 (∅, 0)

/-! ## Claim C8 -/

/-- Claim C8: for every address set whose members are non-empty,
newline-free and trim-invariant (no surrounding whitespace), writing the set
with `saveIpList` and reading it back with the store's `getIpList` yields an
equal set — for the file-backed store (through its newline-separated text
serialization) and for the in-memory store.  `Finset` equality is
order-independent by construction. -/
theorem C8_round_trip (S : Finset String)
    (h : ∀ m ∈ S, m ≠ "" ∧ '\n' ∉ m.data ∧ trimChar m.data = m.data)
    (fsS : FsState) (memS : InMemoryState) :
    (FileSystemPersistence.saveIpList S fsS).bind FileSystemPersistence.getIpList = .ok S
    ∧ (InMemoryPersistence.saveIpList S memS).bind InMemoryPersistence.getIpList
        = .ok S := by
  constructor
  · simp [FileSystemPersistence, Except.bind, parseIpFile_serialize S h]
  · simp [InMemoryPersistence, Except.bind]

/-- Witness for C8 at a concrete two-element set. -/
theorem C8_round_trip_witness :
    ((FileSystemPersistence.saveIpList {"1.2.3.4", "5.6.7.8"} ⟨none, none⟩).bind
        FileSystemPersistence.getIpList = .ok {"1.2.3.4", "5.6.7.8"})
    ∧ ((InMemoryPersistence.saveIpList {"1.2.3.4", "5.6.7.8"} (∅, 0)).bind
        InMemoryPersistence.getIpList = .ok {"1.2.3.4", "5.6.7.8"}) :=
  C8_round_trip {"1.2.3.4", "5.6.7.8"} (by decide) ⟨none, none⟩ (∅, 0)

/-! ## Claim C9 -/

/-- Claim C9 counterexample.  The claim measures the 60000 ms memo window
from any call that returns `S`; the code measures it from the instant the
memo was last written.  Three calls against the in-memory store: call A at
time 0 populates the memo with `{"1.1.1.1"}`; call B at time 50000 is served
from the memo (returning that set, leaving `cacheTimestamp = 0`); call C at
time 100000 — only 50000 ms after B, `update=false`, a different store
holding `{"2.2.2.2"}` — misses the memo, reads the supplied store's address
set (`readStoreSet = true`) and returns `{"2.2.2.2"}`, not the memoized
set. -/
theorem C9_counterexample :
    getIpList InMemoryPersistence (.bool false) ⟨none, 0⟩ .failure 0 ({"1.1.1.1"}, 0)
      = .ok ⟨{"1.1.1.1"}, ⟨some {"1.1.1.1"}, 0⟩, (({"1.1.1.1"} : Finset String), 0),
          false, true, false⟩
    ∧ getIpList InMemoryPersistence (.bool false) ⟨some {"1.1.1.1"}, 0⟩ .failure 50000
        ({"1.1.1.1"}, 0)
      = .ok ⟨{"1.1.1.1"}, ⟨some {"1.1.1.1"}, 0⟩, (({"1.1.1.1"} : Finset String), 0),
          false, false, false⟩
    ∧ getIpList InMemoryPersistence (.bool false) ⟨some {"1.1.1.1"}, 0⟩ .failure 100000
        ({"2.2.2.2"}, 0)
      = .ok ⟨{"2.2.2.2"}, ⟨some {"2.2.2.2"}, 100000⟩, (({"2.2.2.2"} : Finset String), 0),
          false, true, false⟩
    ∧ (100000 : Int) - 50000 < 60000
    ∧ ({"2.2.2.2"} : Finset String) ≠ {"1.1.1.1"} := by
  exact ⟨by decide, by decide, by decide, by decide, by decide⟩

/-- Claim C9 amended: if the memo holds `S` and was last written at time
`tc`, then any `getIpList` call starting at `now` with `now - tc < 60000`
whose update mode does not force a refresh (`update=false`, or
`update="auto"` with a fresh timestamp in the supplied store) returns the
memoized `S` without reading the supplied store's address set and without
touching the store — even when a different store instance (any `M`, `s`) is
supplied. -/
theorem C9_memo_window (σ : Type) (M : StoreModel σ) (S : Finset String) (tc now : Int)
    (s : σ) (fetch : FetchOutcome) (hlt : now - tc < 60000) :
    getIpList M (.bool false) ⟨some S, tc⟩ fetch now s
      = .ok ⟨S, ⟨some S, tc⟩, s, false, false, false⟩
    ∧ (∀ ts : Int, M.getTimestamp s = .ok ts → now - ts ≤ 86400000 →
      getIpList M (.str "auto") ⟨some S, tc⟩ fetch now s
        = .ok ⟨S, ⟨some S, tc⟩, s, false, false, true⟩) := by
  constructor
  · exact getIpList_cache_hit M (.bool false) S tc fetch now s false rfl hlt
  · intro ts hts hfresh
    have hsu : computeShouldUpdate M (.str "auto") now s = .ok (false, true) := by
      rw [computeShouldUpdate_auto M now s ts hts, decide_eq_false (by omega)]
    exact getIpList_cache_hit M (.str "auto") S tc fetch now s true hsu hlt

/-- Witness for C9 amended at a concrete input: a different store instance
holding a different set, 59999 ms after the memo write. -/
theorem C9_memo_window_witness :
    getIpList InMemoryPersistence (.bool false) ⟨some {"1.1.1.1"}, 0⟩ .failure 59999
        ({"2.2.2.2"}, 59000)
      = .ok ⟨{"1.1.1.1"}, ⟨some {"1.1.1.1"}, 0⟩, (({"2.2.2.2"} : Finset String), 59000),
          false, false, false⟩
    ∧ (∀ ts : Int,
      InMemoryPersistence.getTimestamp ({"2.2.2.2"}, 59000) = .ok ts →
      (59999 : Int) - ts ≤ 86400000 →
      getIpList InMemoryPersistence (.str "auto") ⟨some {"1.1.1.1"}, 0⟩ .failure 59999
          ({"2.2.2.2"}, 59000)
        = .ok ⟨{"1.1.1.1"}, ⟨some {"1.1.1.1"}, 0⟩, (({"2.2.2.2"} : Finset String), 59000),
            false, false, true⟩) :=
  C9_memo_window InMemoryState InMemoryPersistence {"1.1.1.1"} 0 59999
    ({"2.2.2.2"}, 59000) .failure (by decide)

/-! ## Claim C10 -/

/-- Claim C10: for every `update` value other than boolean `true` and the
exact string `"auto"` — boolean `false`, any other string such as
`"always"`, or a number — `getIpList` behaves identically to a call with
`update=false`: the `shouldUpdate` computation yields `false` without
reading the store's timestamp (no staleness check), and the whole call
produces the same outcome as with `update=false`. -/
theorem C10_update_fallthrough {σ : Type} (M : StoreModel σ) (u : UpdateParam)
    (cache : CacheState) (fetch : FetchOutcome) (now : Int) (s : σ)
    (h1 : u ≠ .bool true) (h2 : u ≠ .str "auto") :
    computeShouldUpdate M u now s = .ok (false, false)
    ∧ getIpList M u cache fetch now s = getIpList M (.bool false) cache fetch now s := by
  have hsu : computeShouldUpdate M u now s = .ok (false, false) := by
    cases u with
    | bool b =>
      cases b with
      | false => rfl
      | true => exact absurd rfl h1
    | str v =>
      have hv : v ≠ "auto" := fun e => h2 (by rw [e])
      exact computeShouldUpdate_str_other M v hv now s
    | num n => rfl
  refine ⟨hsu, ?_⟩
  unfold getIpList
  rw [hsu]
  rfl

/-- Witness for C10 at the concrete value `update="always"`. -/
theorem C10_update_fallthrough_witness :
    computeShouldUpdate InMemoryPersistence (.str "always") 1234 ({"1.2.3.4"}, 0)
      = .ok (false, false)
    ∧ getIpList InMemoryPersistence (.str "always") ⟨none, 0⟩ .failure 1234
        ({"1.2.3.4"}, 0)
      = getIpList InMemoryPersistence (.bool false) ⟨none, 0⟩ .failure 1234
        ({"1.2.3.4"}, 0) :=
  C10_update_fallthrough InMemoryPersistence (.str "always") ⟨none, 0⟩ .failure 1234
    ({"1.2.3.4"}, 0) (by decide) (by decide)

end Detecttor
